import Mathlib

/-!
Shallow embedding of the `py_igsdb_base_data` product data model
(`src/py_igsdb_base_data/optical.py` and `src/py_igsdb_base_data/product.py`).

Conventions of the embedding:
* Python `Optional[T]` fields become `Option T`; `None` becomes `none`.
* Python `float` and `Decimal` data values become `ℚ` where the code only
  stores and compares them; the blind-geometry computations, which take a
  square root, are modelled over `ℝ` (exact arithmetic, the idealisation of
  Python's `decimal` module).
* A Python method that can raise becomes a function into `Except`; an
  attribute access on `None` (an `AttributeError`) is modelled explicitly
  where the source wraps it in `try/except`.
* A Python function that can fall off its end returns `Option Bool` where the
  source annotates `bool`: `none` is Python's implicit `None` return.
-/

namespace IGSDB

/-! ## Optical data model (`optical.py`) -/

/-- One entry of `AngleBlock.wavelength_data`: the source keeps these as raw
dicts and reads `float(w_data['w'])`; only the parsed wavelength matters. -/
structure WavelengthEntry where
  w : ℚ
deriving DecidableEq

/-- `AngleBlock` from `optical.py`. -/
structure AngleBlock where
  incidence_angle : ℤ := 0
  num_wavelengths : ℕ := 0
  wavelength_data : List WavelengthEntry := []
deriving DecidableEq

/-- `OpticalData` from `optical.py`. -/
structure OpticalData where
  number_incidence_angles : Option ℤ := none
  angle_blocks : List AngleBlock := []
deriving DecidableEq

/-- `OpticalProperties` from `optical.py` (the second, surviving definition). -/
structure OpticalProperties where
  optical_data_type : String := "DISCRETE"
  incidence_angular_resolution_type : String := "DIRECT"
  outgoing_angular_resolution_type : String := "DIRECT"
  optical_data : Option OpticalData := none
deriving DecidableEq

/-- `OpticalProperties.has_thermal_ir_wavelengths`: returns `False` when
`optical_data` is `None`, `True` as soon as a wavelength entry exceeds 2500,
and otherwise falls off the end of the function, i.e. returns Python `None`
(modelled as `none`). -/
def OpticalProperties.has_thermal_ir_wavelengths (op : OpticalProperties) :
    Option Bool :=
  match op.optical_data with
  | none => some false
  | some od =>
    if od.angle_blocks.any (fun ab => ab.wavelength_data.any (fun e => 2500 < e.w)) then
      some true
    else
      none

/-- `OpticalStandardMethodFluxResults` from `optical.py`. -/
structure OpticalStandardMethodFluxResults where
  direct_direct : Option ℚ := none
  direct_diffuse : Option ℚ := none
  direct_hemispherical : Option ℚ := none
  diffuse_diffuse : Option ℚ := none
  matrix : Option (List (List ℚ)) := none
deriving DecidableEq

/-- `OpticalStandardMethodResults` from `optical.py`.  The four flux fields
are annotated without `Optional` in the source but default to `None`, so they
are `Option` here as well. -/
structure OpticalStandardMethodResults where
  transmittance_front : Option OpticalStandardMethodFluxResults := none
  transmittance_back : Option OpticalStandardMethodFluxResults := none
  reflectance_front : Option OpticalStandardMethodFluxResults := none
  reflectance_back : Option OpticalStandardMethodFluxResults := none
  absorptance_front_direct : Option ℚ := none
  absorptance_back_direct : Option ℚ := none
  absorptance_front_hemispheric : Option ℚ := none
  absorptance_back_hemispheric : Option ℚ := none
  error : Option String := none
deriving DecidableEq

/-- `ThermalIRResults` from `optical.py` (its stored fields). -/
structure ThermalIRResults where
  transmittance_front_diffuse_diffuse : Option ℚ := none
  transmittance_back_diffuse_diffuse : Option ℚ := none
  emissivity_front_hemispheric : Option ℚ := none
  emissivity_back_hemispheric : Option ℚ := none
  error : Option String := none
deriving DecidableEq

/-- Python truthiness of an `Optional` numeric value: `None` and `0` are
falsy, every other number is truthy. -/
def optTruthy (v : Option ℚ) : Bool :=
  match v with
  | none => false
  | some x => x ≠ 0

/-- The `ThermalIRResults.transmittance_front` shortcut property:
`if self.transmittance_front_diffuse_diffuse: return it; else return None`. -/
def ThermalIRResults.transmittance_front (t : ThermalIRResults) : Option ℚ :=
  if optTruthy t.transmittance_front_diffuse_diffuse then
    t.transmittance_front_diffuse_diffuse
  else
    none

/-- The `ThermalIRResults.transmittance_back` shortcut property. -/
def ThermalIRResults.transmittance_back (t : ThermalIRResults) : Option ℚ :=
  if optTruthy t.transmittance_back_diffuse_diffuse then
    t.transmittance_back_diffuse_diffuse
  else
    none

/-- `TrichromaticResult` from `optical.py`. -/
structure TrichromaticResult where
  x : Option ℚ := none
  y : Option ℚ := none
  z : Option ℚ := none
deriving DecidableEq

/-- `LabResult` from `optical.py`. -/
structure LabResult where
  l : Option ℚ := none
  a : Option ℚ := none
  b : Option ℚ := none
deriving DecidableEq

/-- `RGBResult` from `optical.py`. -/
structure RGBResult where
  r : Option ℚ := none
  g : Option ℚ := none
  b : Option ℚ := none
deriving DecidableEq

/-- `OpticalColorResult` from `optical.py`. -/
structure OpticalColorResult where
  trichromatic : Option TrichromaticResult := none
  lab : Option LabResult := none
  rgb : Option RGBResult := none
deriving DecidableEq

/-- `OpticalColorFluxResults` from `optical.py`. -/
structure OpticalColorFluxResults where
  direct_direct : Option OpticalColorResult := none
  direct_diffuse : Option OpticalColorResult := none
  direct_hemispherical : Option OpticalColorResult := none
  diffuse_diffuse : Option OpticalColorResult := none
deriving DecidableEq

/-- `OpticalColorResults` from `optical.py`. -/
structure OpticalColorResults where
  transmittance_front : Option OpticalColorFluxResults := none
  transmittance_back : Option OpticalColorFluxResults := none
  reflectance_front : Option OpticalColorFluxResults := none
  reflectance_back : Option OpticalColorFluxResults := none
  error : Option String := none
deriving DecidableEq

/-- `OpticalStandardMethodResultsFactory.create`. -/
def OpticalStandardMethodResultsFactory.create : OpticalStandardMethodResults :=
  { transmittance_front := some {}
    transmittance_back := some {}
    reflectance_front := some {}
    reflectance_back := some {} }

/-- `OpticalColorResultFactory.create`. -/
def OpticalColorResultFactory.create : OpticalColorResult :=
  { trichromatic := some {}
    rgb := some {}
    lab := some {} }

/-- `OpticalColorFluxResultsFactory.create`. -/
def OpticalColorFluxResultsFactory.create : OpticalColorFluxResults :=
  { direct_direct := some OpticalColorResultFactory.create
    direct_diffuse := some OpticalColorResultFactory.create
    direct_hemispherical := some OpticalColorResultFactory.create
    diffuse_diffuse := some OpticalColorResultFactory.create }

/-- `OpticalColorResultsFactory.create`. -/
def OpticalColorResultsFactory.create : OpticalColorResults :=
  { transmittance_front := some OpticalColorFluxResultsFactory.create
    transmittance_back := some OpticalColorFluxResultsFactory.create
    reflectance_front := some OpticalColorFluxResultsFactory.create
    reflectance_back := some OpticalColorFluxResultsFactory.create }

/-- `IntegratedSpectralAveragesSummaryValues` from `optical.py` (its stored
fields; the file's many shortcut properties are added below only where a
claim needs them). -/
structure IntegratedSpectralAveragesSummaryValues where
  solar : Option OpticalStandardMethodResults := none
  photopic : Option OpticalStandardMethodResults := none
  thermal_ir : Option ThermalIRResults := none
  tuv : Option OpticalStandardMethodResults := none
  spf : Option OpticalStandardMethodResults := none
  tdw : Option OpticalStandardMethodResults := none
  tkr : Option OpticalStandardMethodResults := none
  color : Option OpticalColorResults := none
deriving DecidableEq

/-- The `tir_front` property of `IntegratedSpectralAveragesSummaryValues`:
`self.thermal_ir.transmittance_front` with an `AttributeError` on a `None`
`thermal_ir` caught and turned into `None`. -/
def IntegratedSpectralAveragesSummaryValues.tir_front
    (sv : IntegratedSpectralAveragesSummaryValues) : Option ℚ :=
  match sv.thermal_ir with
  | none => none
  | some t => t.transmittance_front

/-- The `tir_back` property of `IntegratedSpectralAveragesSummaryValues`. -/
def IntegratedSpectralAveragesSummaryValues.tir_back
    (sv : IntegratedSpectralAveragesSummaryValues) : Option ℚ :=
  match sv.thermal_ir with
  | none => none
  | some t => t.transmittance_back

/-- `IntegratedSpectralAveragesSummaryValuesFactory.create`. -/
def IntegratedSpectralAveragesSummaryValuesFactory.create :
    IntegratedSpectralAveragesSummaryValues :=
  { solar := some OpticalStandardMethodResultsFactory.create
    photopic := some OpticalStandardMethodResultsFactory.create
    thermal_ir := some {}
    tuv := some OpticalStandardMethodResultsFactory.create
    spf := some OpticalStandardMethodResultsFactory.create
    tdw := some OpticalStandardMethodResultsFactory.create
    tkr := some OpticalStandardMethodResultsFactory.create
    color := some OpticalColorResultsFactory.create }

/-! ## Product data model (`product.py`) -/

/-- The member names of the `ProductType` enum. -/
def ProductTypeNames : List String := ["GLAZING", "SHADING", "MATERIAL"]

/-- The member names of the `ProductSubtype` enum. -/
def ProductSubtypeNames : List String :=
  ["MONOLITHIC", "LAMINATE", "INTERLAYER", "EMBEDDED_COATING", "COATED",
   "COATING", "APPLIED_FILM", "FILM", "FRITTED_GLASS", "SANDBLASTED_GLASS",
   "ACID_ETCHED_GLASS", "CHROMOGENIC", "VENETIAN_BLIND", "VERTICAL_LOUVER",
   "PERFORATED_SCREEN", "WOVEN_SHADE", "ROLLER_SHADE", "CELLULAR_SHADE",
   "PLEATED_SHADE", "ROMAN_SHADE", "DIFFUSING_SHADE", "SOLAR_SCREEN",
   "SHADE_MATERIAL", "UNKNOWN"]

/-- The member names of the `TokenType` enum. -/
def TokenTypeNames : List String :=
  ["PUBLISHED", "UNDEFINED", "PROPOSED", "INTRAGROUP", "INTERGROUP"]

/-- `GeometricProperties` from `product.py`; its `geometry` payload is kept
abstract here (`BlindGeometry` is modelled separately below over `ℝ`), since
no verified operation reads it through a product. -/
structure GeometricProperties where
  geometry_present : Bool := false
deriving DecidableEq

/-- `PhysicalProperties` from `product.py` (the untyped
`bulk_properties_override` dict is not modelled). -/
structure PhysicalProperties where
  thickness : Option ℚ := none
  permeability_factor : Option ℚ := none
  optical_openness : Option ℚ := none
  is_specular : Bool := true
  optical_properties : Option OpticalProperties := none
  predefined_tir_front : Option ℚ := none
  predefined_tir_back : Option ℚ := none
  predefined_emissivity_front : Option ℚ := none
  predefined_emissivity_back : Option ℚ := none
  geometric_properties : Option GeometricProperties := none
deriving DecidableEq

/-- `PhysicalProperties.__post_init__`: a `None` `optical_properties` is
replaced by a default `OpticalProperties()`. -/
def PhysicalProperties.post_init (pp : PhysicalProperties) : PhysicalProperties :=
  match pp.optical_properties with
  | none => { pp with optical_properties := some {} }
  | some _ => pp

/-- `IntegratedSpectralAveragesSummary` from `product.py`. -/
structure IntegratedSpectralAveragesSummary where
  summary_values : Option IntegratedSpectralAveragesSummaryValues := none
  calculation_standard : Option String := none
  source : Option String := none
  source_version : Option String := none
deriving DecidableEq

/-- `CompositionDetails` from `product.py`. -/
structure CompositionDetails where
  flipped : Option Bool := none
  thickness : Option ℚ := none
  layer_filename : Option String := none
  substrate_data_file_name : Option String := none
  coating_id : Option ℤ := none
  coating_name : Option String := none
  coated_side_faces_exterior : Option Bool := none
deriving DecidableEq

/-- `ProductComposition` from `product.py` (the `new_product_definition`
payload, unused by every verified operation, is kept as a presence flag). -/
structure ProductComposition where
  type : Option String := none
  subtype : Option String := none
  token_type : Option String := none
  token : Option String := none
  index : Option ℤ := none
  name : Option String := none
  thickness : Option ℚ := none
  composition_details : Option CompositionDetails := none
  legacy_filename : Option String := none
  igdb_layer_filename : Option String := none
  igdb_layer_glazing_id : Option ℤ := none
deriving DecidableEq

/-- `BaseProduct` from `product.py`: the fields read or written by the
operations under verification.  `type`, `subtype` and `token_type` are
property-wired onto the private backing attributes `_type`, `_subtype` and
`_token_type` at module level, so the backing fields are what the record
stores; the remaining fields of the (very wide) dataclass are passive
storage the verified operations never touch and are omitted. -/
structure BaseProduct where
  token : Option String := none
  uuid : Option String := none
  _type : Option String := none
  _subtype : Option String := none
  _token_type : Option String := none
  composition : List ProductComposition := []
  integrated_spectral_averages_summaries : List IntegratedSpectralAveragesSummary := []
  physical_properties : Option PhysicalProperties := none
deriving DecidableEq

/-- The `ValueError` raised by the `set_type` / `set_subtype` /
`set_token_type` validators: "Invalid product ⟨field⟩: ⟨value⟩". -/
inductive ProductError where
  | invalidEnumValue (field : String) (value : String)
deriving DecidableEq

/-- `BaseProduct.get_type`. -/
def BaseProduct.get_type (p : BaseProduct) : Option String := p._type

/-- `BaseProduct.get_subtype`. -/
def BaseProduct.get_subtype (p : BaseProduct) : Option String := p._subtype

/-- `BaseProduct.get_token_type`. -/
def BaseProduct.get_token_type (p : BaseProduct) : Option String := p._token_type

/-- `BaseProduct.set_type`: a non-`None` value must be a `ProductType`
member name, else `ValueError("Invalid product type: ...")`. -/
def BaseProduct.set_type (p : BaseProduct) (v : Option String) :
    Except ProductError BaseProduct :=
  match v with
  | none => .ok { p with _type := none }
  | some s =>
    if s ∈ ProductTypeNames then .ok { p with _type := some s }
    else .error (.invalidEnumValue "type" s)

/-- `BaseProduct.set_subtype`. -/
def BaseProduct.set_subtype (p : BaseProduct) (v : Option String) :
    Except ProductError BaseProduct :=
  match v with
  | none => .ok { p with _subtype := none }
  | some s =>
    if s ∈ ProductSubtypeNames then .ok { p with _subtype := some s }
    else .error (.invalidEnumValue "subtype" s)

/-- `BaseProduct.set_token_type`. -/
def BaseProduct.set_token_type (p : BaseProduct) (v : Option String) :
    Except ProductError BaseProduct :=
  match v with
  | none => .ok { p with _token_type := none }
  | some s =>
    if s ∈ TokenTypeNames then .ok { p with _token_type := some s }
    else .error (.invalidEnumValue "token_type" s)

/-- Construction of a `BaseProduct`: the dataclass `__init__` assigns the
`type`, `subtype` and `token_type` arguments through the module-level
property wiring, so each assignment runs the validating setter and a bad
enum string makes construction itself raise. -/
def mkBaseProduct (type subtype token_type : Option String) :
    Except ProductError BaseProduct := do
  let p : BaseProduct := {}
  let p ← p.set_type type
  let p ← p.set_subtype subtype
  let p ← p.set_token_type token_type
  return p

/-! ## Derived accessors on `BaseProduct` -/

/-- `BaseProduct.has_thermal_ir_wavelengths`: `False` without physical or
optical properties, otherwise the (possibly `None`) result of
`OpticalProperties.has_thermal_ir_wavelengths`. -/
def BaseProduct.has_thermal_ir_wavelengths (p : BaseProduct) : Option Bool :=
  match p.physical_properties with
  | none => some false
  | some pp =>
    match pp.optical_properties with
    | none => some false
    | some op => op.has_thermal_ir_wavelengths

/-- The `AttributeError` a chained attribute access raises on a `None` link. -/
inductive AttrError where
  | attributeError
deriving DecidableEq

/-- The chain `summary.summary_values.thermal_ir.transmittance_front`
evaluated inside `get_tir_front`'s `try`: accessing an attribute of a `None`
`summary_values` or `None` `thermal_ir` raises `AttributeError`. -/
def tirFrontChain (s : IntegratedSpectralAveragesSummary) :
    Except AttrError (Option ℚ) :=
  match s.summary_values with
  | none => .error .attributeError
  | some sv =>
    match sv.thermal_ir with
    | none => .error .attributeError
    | some t => .ok t.transmittance_front

/-- The chain `summary.summary_values.thermal_ir.transmittance_back`
evaluated inside `get_tir_back`'s `try`. -/
def tirBackChain (s : IntegratedSpectralAveragesSummary) :
    Except AttrError (Option ℚ) :=
  match s.summary_values with
  | none => .error .attributeError
  | some sv =>
    match sv.thermal_ir with
    | none => .error .attributeError
    | some t => .ok t.transmittance_back

/-- The chain `summary.summary_values.thermal_ir.emissivity_front_hemispheric`
evaluated inside `get_emissivity_front`'s `try` (a stored field, not a
shortcut property). -/
def emissivityFrontChain (s : IntegratedSpectralAveragesSummary) :
    Except AttrError (Option ℚ) :=
  match s.summary_values with
  | none => .error .attributeError
  | some sv =>
    match sv.thermal_ir with
    | none => .error .attributeError
    | some t => .ok t.emissivity_front_hemispheric

/-- The chain `summary.summary_values.thermal_ir.emissivity_back_hemispheric`
evaluated inside `get_emissivity_back`'s `try`. -/
def emissivityBackChain (s : IntegratedSpectralAveragesSummary) :
    Except AttrError (Option ℚ) :=
  match s.summary_values with
  | none => .error .attributeError
  | some sv =>
    match sv.thermal_ir with
    | none => .error .attributeError
    | some t => .ok t.emissivity_back_hemispheric

/-- `try: value = chain(s); ... except Exception: pass` collapsed to a value:
an `AttributeError` means the summary offers no value. -/
def chainValue (chain : IntegratedSpectralAveragesSummary → Except AttrError (Option ℚ))
    (s : IntegratedSpectralAveragesSummary) : Option ℚ :=
  match chain s with
  | .error _ => none
  | .ok v => v

/-- The `for summary in ...` loop shared by the four thermal accessors: the
first summary whose `calculation_standard` equals the requested name and
whose chained value is neither an error nor `None` decides the result;
every other summary is passed over. -/
def searchSummaries
    (chain : IntegratedSpectralAveragesSummary → Except AttrError (Option ℚ))
    (name : String) :
    List IntegratedSpectralAveragesSummary → Option ℚ
  | [] => none
  | s :: rest =>
    if s.calculation_standard = some name then
      match chainValue chain s with
      | some v => some v
      | none => searchSummaries chain name rest
    else
      searchSummaries chain name rest

/-- The same loop with the `try/except` left in `Except` form, to state that
the caught `AttributeError` can never escape. -/
def searchSummariesE
    (chain : IntegratedSpectralAveragesSummary → Except AttrError (Option ℚ))
    (name : String) :
    List IntegratedSpectralAveragesSummary → Except AttrError (Option ℚ)
  | [] => .ok none
  | s :: rest =>
    if s.calculation_standard = some name then
      match chain s with
      | .error _ => searchSummariesE chain name rest
      | .ok (some v) => .ok (some v)
      | .ok none => searchSummariesE chain name rest
    else
      searchSummariesE chain name rest

/-- `BaseProduct.get_tir_front`: the calculated value for the requested
standard when one exists, else the predefined value when physical properties
exist, else `None`. -/
def BaseProduct.get_tir_front (p : BaseProduct)
    (calculation_standard_name : String := "NFRC") : Option ℚ :=
  match searchSummaries tirFrontChain calculation_standard_name
      p.integrated_spectral_averages_summaries with
  | some v => some v
  | none =>
    match p.physical_properties with
    | some pp => pp.predefined_tir_front
    | none => none

/-- `BaseProduct.get_tir_back`. -/
def BaseProduct.get_tir_back (p : BaseProduct)
    (calculation_standard_name : String := "NFRC") : Option ℚ :=
  match searchSummaries tirBackChain calculation_standard_name
      p.integrated_spectral_averages_summaries with
  | some v => some v
  | none =>
    match p.physical_properties with
    | some pp => pp.predefined_tir_back
    | none => none

/-- `BaseProduct.get_emissivity_front`. -/
def BaseProduct.get_emissivity_front (p : BaseProduct)
    (calculation_standard_name : String := "NFRC") : Option ℚ :=
  match searchSummaries emissivityFrontChain calculation_standard_name
      p.integrated_spectral_averages_summaries with
  | some v => some v
  | none =>
    match p.physical_properties with
    | some pp => pp.predefined_emissivity_front
    | none => none

/-- `BaseProduct.get_emissivity_back`. -/
def BaseProduct.get_emissivity_back (p : BaseProduct)
    (calculation_standard_name : String := "NFRC") : Option ℚ :=
  match searchSummaries emissivityBackChain calculation_standard_name
      p.integrated_spectral_averages_summaries with
  | some v => some v
  | none =>
    match p.physical_properties with
    | some pp => pp.predefined_emissivity_back
    | none => none

/-- `BaseProduct.get_tir_front` with the raising attribute chain kept in
`Except` form. -/
def BaseProduct.get_tir_front_E (p : BaseProduct)
    (calculation_standard_name : String := "NFRC") :
    Except AttrError (Option ℚ) := do
  let r ← searchSummariesE tirFrontChain calculation_standard_name
      p.integrated_spectral_averages_summaries
  match r with
  | some v => return some v
  | none =>
    match p.physical_properties with
    | some pp => return pp.predefined_tir_front
    | none => return none

/-- `BaseProduct.get_tir_back` with the raising attribute chain kept in
`Except` form. -/
def BaseProduct.get_tir_back_E (p : BaseProduct)
    (calculation_standard_name : String := "NFRC") :
    Except AttrError (Option ℚ) := do
  let r ← searchSummariesE tirBackChain calculation_standard_name
      p.integrated_spectral_averages_summaries
  match r with
  | some v => return some v
  | none =>
    match p.physical_properties with
    | some pp => return pp.predefined_tir_back
    | none => return none

/-- `BaseProduct.get_emissivity_front` with the raising attribute chain kept
in `Except` form. -/
def BaseProduct.get_emissivity_front_E (p : BaseProduct)
    (calculation_standard_name : String := "NFRC") :
    Except AttrError (Option ℚ) := do
  let r ← searchSummariesE emissivityFrontChain calculation_standard_name
      p.integrated_spectral_averages_summaries
  match r with
  | some v => return some v
  | none =>
    match p.physical_properties with
    | some pp => return pp.predefined_emissivity_front
    | none => return none

/-- `BaseProduct.get_emissivity_back` with the raising attribute chain kept
in `Except` form. -/
def BaseProduct.get_emissivity_back_E (p : BaseProduct)
    (calculation_standard_name : String := "NFRC") :
    Except AttrError (Option ℚ) := do
  let r ← searchSummariesE emissivityBackChain calculation_standard_name
      p.integrated_spectral_averages_summaries
  match r with
  | some v => return some v
  | none =>
    match p.physical_properties with
    | some pp => return pp.predefined_emissivity_back
    | none => return none

/-- The scan of the composition list inside `has_coating_on_surface`: a layer
whose `subtype` is `"COATED"`, whose `composition_details` is present and
whose `coated_side_faces_exterior` flag is truthy returns that flag (`True`);
the loop otherwise continues and falls through to `False`. -/
def hasCoatingScan : List ProductComposition → Bool
  | [] => false
  | layer :: rest =>
    if layer.subtype = some "COATED" then
      match layer.composition_details with
      | some cd =>
        if cd.coated_side_faces_exterior = some true then true
        else hasCoatingScan rest
      | none => hasCoatingScan rest
    else
      hasCoatingScan rest

/-- `BaseProduct.has_coating_on_surface`: `False` for every non-`LAMINATE`
product, else the composition scan. -/
def BaseProduct.has_coating_on_surface (p : BaseProduct) : Bool :=
  if p._subtype = some "LAMINATE" then hasCoatingScan p.composition
  else false

/-- `BaseProduct.can_have_predefined_thermal_values`: only `MONOLITHIC` or an
uncoated `LAMINATE`. -/
def BaseProduct.can_have_predefined_thermal_values (p : BaseProduct) : Bool :=
  if p._subtype = some "MONOLITHIC" ∨ p._subtype = some "LAMINATE" then
    if p._subtype = some "LAMINATE" then
      if p.has_coating_on_surface then false else true
    else true
  else false

/-! ## Blind slat geometry (`BlindGeometry` in `product.py`)

The source computes with Python `Decimal` (exact decimal arithmetic with a
correctly-rounded `sqrt`); the embedding idealises this as exact real
arithmetic with `Real.sqrt`. -/

/-- `BlindGeometry` from `product.py`. -/
structure BlindGeometry where
  _rise : Option ℝ := none
  slat_width : Option ℝ := none
  slat_spacing : Option ℝ := none
  slat_curvature : Option ℝ := none
  slat_tilt : Option ℝ := none
  n_segments : Option ℤ := some 5
  tilt_choice : Option String := none

/-- The `ValueError`s raised by the two geometry conversions: a missing
precursor field, or a rise beyond `slat_width / 2` (the message carries that
bound). -/
inductive GeometryError where
  | missingValue (field : String)
  | invalidGeometry (max_rise : ℝ)

/-- `BlindGeometry.set_rise_from_curvature`: the new state paired with the
returned rise. -/
noncomputable def BlindGeometry.set_rise_from_curvature (g : BlindGeometry) :
    Except GeometryError (BlindGeometry × ℝ) :=
  match g.slat_curvature with
  | none => .error (.missingValue "slat_curvature")
  | some curvature =>
    if curvature ≤ 0 then
      .ok ({ g with _rise := some 0 }, 0)
    else
      match g.slat_width with
      | none => .error (.missingValue "slat_width")
      | some slat_width =>
        let val := curvature * curvature - slat_width * slat_width / 4
        let rise := if val < 0 then slat_width / 2 else curvature - Real.sqrt val
        .ok ({ g with _rise := some rise }, rise)

/-- `BlindGeometry.set_curvature_from_rise`: the new state paired with the
returned curvature. -/
noncomputable def BlindGeometry.set_curvature_from_rise (g : BlindGeometry) :
    Except GeometryError (BlindGeometry × ℝ) :=
  match g._rise with
  | none => .error (.missingValue "rise")
  | some rise =>
    if rise ≤ 0 then
      .ok ({ g with slat_curvature := some 0 }, 0)
    else
      match g.slat_width with
      | none => .error (.missingValue "slat_width")
      | some slat_width =>
        let max_rise := slat_width / 2
        if max_rise < rise then
          .error (.invalidGeometry max_rise)
        else
          let val := (rise * rise + slat_width * slat_width / 4) / (rise * 2)
          let curvature := if val < 0 then slat_width / 2 else val
          .ok ({ g with slat_curvature := some curvature }, curvature)

/-! ## Helper lemmas -/

/-- `OpticalProperties.has_thermal_ir_wavelengths` answers `some true` exactly
when some wavelength entry of some angle block exceeds 2500. -/
lemma opticalProperties_has_tir_some_true_iff (op : OpticalProperties) :
    op.has_thermal_ir_wavelengths = some true ↔
      ∃ od, op.optical_data = some od ∧
        ∃ ab ∈ od.angle_blocks, ∃ e ∈ ab.wavelength_data, 2500 < e.w := by
  unfold OpticalProperties.has_thermal_ir_wavelengths
  cases h : op.optical_data with
  | none => simp
  | some od =>
    simp only [h, Option.some.injEq]
    constructor
    · intro hif
      by_cases hany :
          od.angle_blocks.any (fun ab => ab.wavelength_data.any (fun e => 2500 < e.w)) = true
      · simp only [List.any_eq_true, decide_eq_true_eq] at hany
        exact ⟨od, rfl, hany⟩
      · simp [hany] at hif
    · intro ⟨od', hod', hex⟩
      cases hod'
      have hany :
          od.angle_blocks.any (fun ab => ab.wavelength_data.any (fun e => 2500 < e.w)) = true := by
        simp only [List.any_eq_true, decide_eq_true_eq]
        exact hex
      simp [hany]

/-! ## Claim theorems -/

/-- **C4.** For every product, `has_thermal_ir_wavelengths` answers true
exactly when some wavelength entry across all angle blocks of the product's
optical data is strictly greater than 2500, and it answers false when the
product has no physical properties, no optical properties, or no optical
data. -/
theorem baseProduct_has_thermal_ir_wavelengths_spec (p : BaseProduct) :
    (p.has_thermal_ir_wavelengths = some true ↔
      ∃ pp, p.physical_properties = some pp ∧
        ∃ op, pp.optical_properties = some op ∧
          ∃ od, op.optical_data = some od ∧
            ∃ ab ∈ od.angle_blocks, ∃ e ∈ ab.wavelength_data, 2500 < e.w)
    ∧ (p.physical_properties = none → p.has_thermal_ir_wavelengths = some false)
    ∧ (∀ pp, p.physical_properties = some pp → pp.optical_properties = none →
        p.has_thermal_ir_wavelengths = some false)
    ∧ (∀ pp op, p.physical_properties = some pp → pp.optical_properties = some op →
        op.optical_data = none → p.has_thermal_ir_wavelengths = some false) := by
  refine ⟨?_, ?_, ?_, ?_⟩
  · cases hpp : p.physical_properties with
    | none => simp [BaseProduct.has_thermal_ir_wavelengths, hpp]
    | some pp =>
      cases hop : pp.optical_properties with
      | none => simp [BaseProduct.has_thermal_ir_wavelengths, hpp, hop]
      | some op =>
        simp only [BaseProduct.has_thermal_ir_wavelengths, hpp, hop]
        rw [opticalProperties_has_tir_some_true_iff]
        constructor
        · rintro ⟨od, hod, hex⟩
          exact ⟨pp, rfl, op, hop, od, hod, hex⟩
        · rintro ⟨pp', hpp', op', hop', hrest⟩
          obtain rfl := Option.some.inj hpp'
          rw [hop] at hop'
          obtain rfl := Option.some.inj hop'
          exact hrest
  · intro h; simp [BaseProduct.has_thermal_ir_wavelengths, h]
  · intro pp h hop; simp [BaseProduct.has_thermal_ir_wavelengths, h, hop]
  · intro pp op h hop hod
    simp [BaseProduct.has_thermal_ir_wavelengths, h, hop,
      OpticalProperties.has_thermal_ir_wavelengths, hod]

/-- A product holding a single angle block with the given wavelength entries,
as built in `tests/test_product.py::test_has_thermal_ir_properties`. -/
def singleBlockProduct (entries : List WavelengthEntry) : BaseProduct :=
  { physical_properties := some
      { optical_properties := some
          { optical_data := some
              { angle_blocks := [{ wavelength_data := entries }] } } } }

/-- **C4 witness.** A concrete product with a single 3000 nm wavelength entry
satisfies the existence side of the characterisation. -/
theorem baseProduct_has_thermal_ir_wavelengths_spec_witness :
    (singleBlockProduct [⟨3000⟩]).has_thermal_ir_wavelengths = some true :=
  (baseProduct_has_thermal_ir_wavelengths_spec _).1.mpr
    ⟨_, rfl, _, rfl, _, rfl, { wavelength_data := [⟨3000⟩] }, by simp [singleBlockProduct],
      ⟨3000⟩, by simp, by norm_num⟩

/-- **C5 (code evaluated at the failing input).**  The repository's own test
(`tests/test_product.py::test_has_thermal_ir_properties`) builds the product
with wavelength set `{0.3}`, asserts falsehood (which passes — the code
returns Python `None`, a falsy value), then appends the wavelength `2500`
and asserts truth.  The code compares strictly (`w > 2500`), so with the
entry exactly `2500` it still falls through and returns `None`: the
`assertTrue` of the repository's test fails.  Both evaluations are `none`
here; in particular neither is `some true`. -/
theorem thermal_ir_wavelength_2500_evaluation :
    (singleBlockProduct [⟨3/10⟩]).has_thermal_ir_wavelengths = none ∧
    (singleBlockProduct [⟨3/10⟩, ⟨2500⟩]).has_thermal_ir_wavelengths = none := by
  constructor <;>
    norm_num [singleBlockProduct, BaseProduct.has_thermal_ir_wavelengths,
      OpticalProperties.has_thermal_ir_wavelengths]

/-- The composition scan succeeds exactly when some layer is `COATED`, has
composition details, and those details set `coated_side_faces_exterior`. -/
lemma hasCoatingScan_eq_true_iff (layers : List ProductComposition) :
    hasCoatingScan layers = true ↔
      ∃ layer ∈ layers, layer.subtype = some "COATED" ∧
        ∃ cd, layer.composition_details = some cd ∧
          cd.coated_side_faces_exterior = some true := by
  induction layers with
  | nil => simp [hasCoatingScan]
  | cons layer rest ih =>
    unfold hasCoatingScan
    by_cases hsub : layer.subtype = some "COATED"
    · cases hcd : layer.composition_details with
      | none => simp [hsub, hcd, ih]
      | some cd =>
        by_cases hflag : cd.coated_side_faces_exterior = some true
        · simp [hsub, hcd, hflag]
        · simp [hsub, hcd, hflag, ih]
    · simp [hsub, ih]

/-- **C7.** `can_have_predefined_thermal_values` holds exactly for
`MONOLITHIC`, or `LAMINATE` without a surface coating; `has_coating_on_surface`
is false for every non-`LAMINATE` product and, for a `LAMINATE`, holds exactly
when some composition layer is `COATED` with present details whose
`coated_side_faces_exterior` is true. -/
theorem can_have_predefined_thermal_values_spec (p : BaseProduct) :
    (p.can_have_predefined_thermal_values = true ↔
      (p._subtype = some "MONOLITHIC" ∨
        (p._subtype = some "LAMINATE" ∧ p.has_coating_on_surface = false)))
    ∧ (p._subtype ≠ some "LAMINATE" → p.has_coating_on_surface = false)
    ∧ (p._subtype = some "LAMINATE" →
        (p.has_coating_on_surface = true ↔
          ∃ layer ∈ p.composition, layer.subtype = some "COATED" ∧
            ∃ cd, layer.composition_details = some cd ∧
              cd.coated_side_faces_exterior = some true)) := by
  refine ⟨?_, ?_, ?_⟩
  · unfold BaseProduct.can_have_predefined_thermal_values
    by_cases h1 : p._subtype = some "MONOLITHIC" <;>
      by_cases h2 : p._subtype = some "LAMINATE"
    · rw [h1] at h2; exact absurd (Option.some.inj h2) (by decide)
    · simp [h1, h2]
    · cases hc : p.has_coating_on_surface <;> simp [h1, h2, hc]
    · simp [h1, h2]
  · intro h
    unfold BaseProduct.has_coating_on_surface
    simp [h]
  · intro h
    unfold BaseProduct.has_coating_on_surface
    simp only [h, if_true]
    exact hasCoatingScan_eq_true_iff _

/-- A `LAMINATE` whose composition holds a `COATED` layer with
`coated_side_faces_exterior = True`, as in the spec's example. -/
def coatedLaminateProduct : BaseProduct :=
  { _subtype := some "LAMINATE"
    composition := [{ subtype := some "COATED"
                      composition_details := some { coated_side_faces_exterior := some true } }] }

/-- **C7 witness.** The coated laminate has a coating on its surface, hence
cannot have predefined thermal values. -/
theorem can_have_predefined_thermal_values_spec_witness :
    coatedLaminateProduct.has_coating_on_surface = true :=
  ((can_have_predefined_thermal_values_spec coatedLaminateProduct).2.2 rfl).mpr
    ⟨{ subtype := some "COATED"
       composition_details := some { coated_side_faces_exterior := some true } },
      by simp [coatedLaminateProduct], rfl, _, rfl, rfl⟩

/-- **C6.** Assigning a `ProductType` member name to `type` succeeds and a
subsequent read returns it; any other string is rejected with the
invalid-enum `ValueError`, and likewise for `subtype` and `token_type`; the
same validation runs at construction, because the dataclass `__init__`
assigns through the property-wired setters. -/
theorem enum_validation_spec (p : BaseProduct) (v : String) :
    (v ∈ ProductTypeNames →
      ∃ p', p.set_type (some v) = .ok p' ∧ p'.get_type = some v)
    ∧ (v ∉ ProductTypeNames →
        p.set_type (some v) = .error (.invalidEnumValue "type" v))
    ∧ (v ∈ ProductSubtypeNames →
        ∃ p', p.set_subtype (some v) = .ok p' ∧ p'.get_subtype = some v)
    ∧ (v ∉ ProductSubtypeNames →
        p.set_subtype (some v) = .error (.invalidEnumValue "subtype" v))
    ∧ (v ∈ TokenTypeNames →
        ∃ p', p.set_token_type (some v) = .ok p' ∧ p'.get_token_type = some v)
    ∧ (v ∉ TokenTypeNames →
        p.set_token_type (some v) = .error (.invalidEnumValue "token_type" v))
    ∧ (v ∈ ProductTypeNames →
        ∃ p', mkBaseProduct (some v) none none = .ok p' ∧ p'.get_type = some v)
    ∧ (v ∉ ProductTypeNames →
        mkBaseProduct (some v) none none = .error (.invalidEnumValue "type" v))
    ∧ (v ∉ ProductSubtypeNames →
        mkBaseProduct none (some v) none = .error (.invalidEnumValue "subtype" v))
    ∧ (v ∉ TokenTypeNames →
        mkBaseProduct none none (some v) =
          .error (.invalidEnumValue "token_type" v)) := by
  refine ⟨?_, ?_, ?_, ?_, ?_, ?_, ?_, ?_, ?_, ?_⟩
  · intro h
    exact ⟨{ p with _type := some v }, by simp [BaseProduct.set_type, h], rfl⟩
  · intro h
    simp [BaseProduct.set_type, h]
  · intro h
    exact ⟨{ p with _subtype := some v }, by simp [BaseProduct.set_subtype, h], rfl⟩
  · intro h
    simp [BaseProduct.set_subtype, h]
  · intro h
    exact ⟨{ p with _token_type := some v }, by simp [BaseProduct.set_token_type, h], rfl⟩
  · intro h
    simp [BaseProduct.set_token_type, h]
  · intro h
    refine ⟨{ _type := some v }, ?_, rfl⟩
    unfold mkBaseProduct
    simp only [BaseProduct.set_type, BaseProduct.set_subtype,
      BaseProduct.set_token_type, if_pos h]
    rfl
  · intro h
    unfold mkBaseProduct
    simp only [BaseProduct.set_type, if_neg h]
    rfl
  · intro h
    unfold mkBaseProduct
    simp only [BaseProduct.set_type, BaseProduct.set_subtype, if_neg h]
    rfl
  · intro h
    unfold mkBaseProduct
    simp only [BaseProduct.set_type, BaseProduct.set_subtype,
      BaseProduct.set_token_type, if_neg h]
    rfl

/-- **C6 witness.** `"GLAZING"` is accepted (by setter and constructor) and
`"BOGUS"` is rejected with the invalid-enum error. -/
theorem enum_validation_spec_witness :
    (∃ p', ({} : BaseProduct).set_type (some "GLAZING") = .ok p' ∧
      p'.get_type = some "GLAZING")
    ∧ (({} : BaseProduct).set_type (some "BOGUS") =
        .error (.invalidEnumValue "type" "BOGUS"))
    ∧ (∃ p', mkBaseProduct (some "GLAZING") none none = .ok p' ∧
        p'.get_type = some "GLAZING")
    ∧ (mkBaseProduct (some "BOGUS") none none =
        .error (.invalidEnumValue "type" "BOGUS")) :=
  ⟨(enum_validation_spec {} "GLAZING").1 (by simp [ProductTypeNames]),
   (enum_validation_spec {} "BOGUS").2.1 (by simp [ProductTypeNames]),
   (enum_validation_spec {} "GLAZING").2.2.2.2.2.2.1 (by simp [ProductTypeNames]),
   (enum_validation_spec {} "BOGUS").2.2.2.2.2.2.2.1 (by simp [ProductTypeNames])⟩

/-- The summary search comes up empty exactly when no matching-standard
summary offers a value. -/
lemma searchSummaries_eq_none_iff
    (chain : IntegratedSpectralAveragesSummary → Except AttrError (Option ℚ))
    (name : String) (l : List IntegratedSpectralAveragesSummary) :
    searchSummaries chain name l = none ↔
      ∀ s ∈ l, s.calculation_standard = some name → chainValue chain s = none := by
  induction l with
  | nil => simp [searchSummaries]
  | cons s rest ih =>
    unfold searchSummaries
    by_cases hstd : s.calculation_standard = some name
    · cases hv : chainValue chain s with
      | none => simp [hstd, hv, ih]
      | some v => simp [hstd, hv]
    · simp [hstd, ih]

/-- When some matching-standard summary offers a value, the search returns
the offered value of such a summary (the first one). -/
lemma searchSummaries_found
    (chain : IntegratedSpectralAveragesSummary → Except AttrError (Option ℚ))
    (name : String) (l : List IntegratedSpectralAveragesSummary)
    (hex : ∃ s ∈ l, s.calculation_standard = some name ∧ (chainValue chain s).isSome) :
    ∃ s ∈ l, s.calculation_standard = some name ∧
      searchSummaries chain name l = chainValue chain s ∧
      (searchSummaries chain name l).isSome := by
  induction l with
  | nil => simp at hex
  | cons s rest ih =>
    unfold searchSummaries
    by_cases hstd : s.calculation_standard = some name
    · cases hv : chainValue chain s with
      | some v =>
        exact ⟨s, by simp, hstd, by simp [hstd, hv], by simp [hstd, hv]⟩
      | none =>
        obtain ⟨t, ht, htstd, htsome⟩ := hex
        rcases List.mem_cons.mp ht with rfl | htrest
        · rw [hv] at htsome; simp at htsome
        · obtain ⟨u, hu, hustd, hueq, husome⟩ := ih ⟨t, htrest, htstd, htsome⟩
          exact ⟨u, List.mem_cons_of_mem _ hu, hustd, by simp [hstd, hv, hueq],
            by simp [hstd, hv, husome]⟩
    · obtain ⟨t, ht, htstd, htsome⟩ := hex
      rcases List.mem_cons.mp ht with rfl | htrest
      · exact absurd htstd hstd
      · obtain ⟨u, hu, hustd, hueq, husome⟩ := ih ⟨t, htrest, htstd, htsome⟩
        exact ⟨u, List.mem_cons_of_mem _ hu, hustd, by simp [hstd, hueq],
          by simp [hstd, husome]⟩

/-- The `Except`-form loop never lets the caught `AttributeError` escape: it
always answers `.ok` of what the collapsed loop answers. -/
lemma searchSummariesE_eq_ok
    (chain : IntegratedSpectralAveragesSummary → Except AttrError (Option ℚ))
    (name : String) (l : List IntegratedSpectralAveragesSummary) :
    searchSummariesE chain name l = .ok (searchSummaries chain name l) := by
  induction l with
  | nil => rfl
  | cons s rest ih =>
    unfold searchSummariesE searchSummaries
    by_cases hstd : s.calculation_standard = some name
    · cases hc : chain s with
      | error e => simp [hstd, hc, ih, chainValue]
      | ok v =>
        cases v with
        | none => simp [hstd, hc, ih, chainValue]
        | some x => simp [hstd, hc, chainValue]
    · simp [hstd, ih]

/-- A summary with `None` `summary_values`, or with a `None` `thermal_ir`
inside them, offers no value through any of the four attribute chains. -/
lemma chainValue_none_of_missing (s : IntegratedSpectralAveragesSummary)
    (h : s.summary_values = none ∨
      ∃ sv, s.summary_values = some sv ∧ sv.thermal_ir = none) :
    chainValue tirFrontChain s = none ∧ chainValue tirBackChain s = none ∧
    chainValue emissivityFrontChain s = none ∧
    chainValue emissivityBackChain s = none := by
  rcases h with h | ⟨sv, hsv, hti⟩
  · simp [chainValue, tirFrontChain, tirBackChain, emissivityFrontChain,
      emissivityBackChain, h]
  · simp [chainValue, tirFrontChain, tirBackChain, emissivityFrontChain,
      emissivityBackChain, hsv, hti]

/-- **C1.** Each thermal accessor returns the value offered by a
matching-standard summary whenever one offers a non-null value; otherwise it
falls back to its own same-named predefined field when physical properties
exist, and to null when they do not. -/
theorem get_thermal_values_precedence (p : BaseProduct) (name : String) :
    ((∃ s ∈ p.integrated_spectral_averages_summaries,
        s.calculation_standard = some name ∧ (chainValue tirFrontChain s).isSome) →
      ∃ s ∈ p.integrated_spectral_averages_summaries,
        s.calculation_standard = some name ∧
        p.get_tir_front name = chainValue tirFrontChain s ∧
        (p.get_tir_front name).isSome)
    ∧ ((∀ s ∈ p.integrated_spectral_averages_summaries,
          s.calculation_standard = some name → chainValue tirFrontChain s = none) →
        (∀ pp, p.physical_properties = some pp →
          p.get_tir_front name = pp.predefined_tir_front)
        ∧ (p.physical_properties = none → p.get_tir_front name = none))
    ∧ ((∃ s ∈ p.integrated_spectral_averages_summaries,
        s.calculation_standard = some name ∧ (chainValue tirBackChain s).isSome) →
      ∃ s ∈ p.integrated_spectral_averages_summaries,
        s.calculation_standard = some name ∧
        p.get_tir_back name = chainValue tirBackChain s ∧
        (p.get_tir_back name).isSome)
    ∧ ((∀ s ∈ p.integrated_spectral_averages_summaries,
          s.calculation_standard = some name → chainValue tirBackChain s = none) →
        (∀ pp, p.physical_properties = some pp →
          p.get_tir_back name = pp.predefined_tir_back)
        ∧ (p.physical_properties = none → p.get_tir_back name = none))
    ∧ ((∃ s ∈ p.integrated_spectral_averages_summaries,
        s.calculation_standard = some name ∧ (chainValue emissivityFrontChain s).isSome) →
      ∃ s ∈ p.integrated_spectral_averages_summaries,
        s.calculation_standard = some name ∧
        p.get_emissivity_front name = chainValue emissivityFrontChain s ∧
        (p.get_emissivity_front name).isSome)
    ∧ ((∀ s ∈ p.integrated_spectral_averages_summaries,
          s.calculation_standard = some name → chainValue emissivityFrontChain s = none) →
        (∀ pp, p.physical_properties = some pp →
          p.get_emissivity_front name = pp.predefined_emissivity_front)
        ∧ (p.physical_properties = none → p.get_emissivity_front name = none))
    ∧ ((∃ s ∈ p.integrated_spectral_averages_summaries,
        s.calculation_standard = some name ∧ (chainValue emissivityBackChain s).isSome) →
      ∃ s ∈ p.integrated_spectral_averages_summaries,
        s.calculation_standard = some name ∧
        p.get_emissivity_back name = chainValue emissivityBackChain s ∧
        (p.get_emissivity_back name).isSome)
    ∧ ((∀ s ∈ p.integrated_spectral_averages_summaries,
          s.calculation_standard = some name → chainValue emissivityBackChain s = none) →
        (∀ pp, p.physical_properties = some pp →
          p.get_emissivity_back name = pp.predefined_emissivity_back)
        ∧ (p.physical_properties = none → p.get_emissivity_back name = none)) := by
  refine ⟨?_, ?_, ?_, ?_, ?_, ?_, ?_, ?_⟩
  · intro hex
    obtain ⟨s, hs, hstd, heq, hsome⟩ := searchSummaries_found tirFrontChain name _ hex
    obtain ⟨v, hv⟩ := Option.isSome_iff_exists.mp hsome
    refine ⟨s, hs, hstd, ?_, ?_⟩ <;>
      simp [BaseProduct.get_tir_front, hv, ← heq]
  · intro hall
    have hs := (searchSummaries_eq_none_iff tirFrontChain name _).mpr hall
    exact ⟨fun pp hpp => by simp [BaseProduct.get_tir_front, hs, hpp],
      fun hpp => by simp [BaseProduct.get_tir_front, hs, hpp]⟩
  · intro hex
    obtain ⟨s, hs, hstd, heq, hsome⟩ := searchSummaries_found tirBackChain name _ hex
    obtain ⟨v, hv⟩ := Option.isSome_iff_exists.mp hsome
    refine ⟨s, hs, hstd, ?_, ?_⟩ <;>
      simp [BaseProduct.get_tir_back, hv, ← heq]
  · intro hall
    have hs := (searchSummaries_eq_none_iff tirBackChain name _).mpr hall
    exact ⟨fun pp hpp => by simp [BaseProduct.get_tir_back, hs, hpp],
      fun hpp => by simp [BaseProduct.get_tir_back, hs, hpp]⟩
  · intro hex
    obtain ⟨s, hs, hstd, heq, hsome⟩ :=
      searchSummaries_found emissivityFrontChain name _ hex
    obtain ⟨v, hv⟩ := Option.isSome_iff_exists.mp hsome
    refine ⟨s, hs, hstd, ?_, ?_⟩ <;>
      simp [BaseProduct.get_emissivity_front, hv, ← heq]
  · intro hall
    have hs := (searchSummaries_eq_none_iff emissivityFrontChain name _).mpr hall
    exact ⟨fun pp hpp => by simp [BaseProduct.get_emissivity_front, hs, hpp],
      fun hpp => by simp [BaseProduct.get_emissivity_front, hs, hpp]⟩
  · intro hex
    obtain ⟨s, hs, hstd, heq, hsome⟩ :=
      searchSummaries_found emissivityBackChain name _ hex
    obtain ⟨v, hv⟩ := Option.isSome_iff_exists.mp hsome
    refine ⟨s, hs, hstd, ?_, ?_⟩ <;>
      simp [BaseProduct.get_emissivity_back, hv, ← heq]
  · intro hall
    have hs := (searchSummaries_eq_none_iff emissivityBackChain name _).mpr hall
    exact ⟨fun pp hpp => by simp [BaseProduct.get_emissivity_back, hs, hpp],
      fun hpp => by simp [BaseProduct.get_emissivity_back, hs, hpp]⟩

/-- A summary for the NFRC standard whose thermal-IR block carries values for
all four quantities. -/
def nfrcSummary : IntegratedSpectralAveragesSummary :=
  { calculation_standard := some "NFRC"
    summary_values := some
      { thermal_ir := some
          { transmittance_front_diffuse_diffuse := some (3/10)
            transmittance_back_diffuse_diffuse := some (2/5)
            emissivity_front_hemispheric := some (21/25)
            emissivity_back_hemispheric := some (9/10) } } }

/-- A product whose only summary is the populated NFRC summary. -/
def thermalProduct : BaseProduct :=
  { integrated_spectral_averages_summaries := [nfrcSummary] }

/-- **C1 witness.** On the populated product the front-TIR accessor returns
the matching summary's offered value. -/
theorem get_thermal_values_precedence_witness :
    ∃ s ∈ thermalProduct.integrated_spectral_averages_summaries,
      s.calculation_standard = some "NFRC" ∧
      thermalProduct.get_tir_front "NFRC" = chainValue tirFrontChain s ∧
      (thermalProduct.get_tir_front "NFRC").isSome :=
  (get_thermal_values_precedence thermalProduct "NFRC").1
    ⟨nfrcSummary, by simp [thermalProduct], rfl,
      by norm_num [chainValue, tirFrontChain, nfrcSummary,
        ThermalIRResults.transmittance_front, optTruthy]⟩

/-- **C8.** The four thermal accessors never raise: with the raising
attribute chain modelled explicitly, each accessor provably answers `.ok` of
its total value for every product, and on a product whose matching summaries
all miss `summary_values` or `thermal_ir` and which has no physical
properties, all four answer null. -/
theorem thermal_accessors_never_raise (p : BaseProduct) (name : String) :
    p.get_tir_front_E name = .ok (p.get_tir_front name)
    ∧ p.get_tir_back_E name = .ok (p.get_tir_back name)
    ∧ p.get_emissivity_front_E name = .ok (p.get_emissivity_front name)
    ∧ p.get_emissivity_back_E name = .ok (p.get_emissivity_back name)
    ∧ (p.physical_properties = none →
        (∀ s ∈ p.integrated_spectral_averages_summaries,
          s.summary_values = none ∨
            ∃ sv, s.summary_values = some sv ∧ sv.thermal_ir = none) →
        p.get_tir_front name = none ∧ p.get_tir_back name = none ∧
        p.get_emissivity_front name = none ∧ p.get_emissivity_back name = none) := by
  refine ⟨?_, ?_, ?_, ?_, ?_⟩
  · unfold BaseProduct.get_tir_front_E BaseProduct.get_tir_front
    rw [searchSummariesE_eq_ok]
    cases searchSummaries tirFrontChain name p.integrated_spectral_averages_summaries with
    | some v => rfl
    | none =>
      cases p.physical_properties with
      | some pp => rfl
      | none => rfl
  · unfold BaseProduct.get_tir_back_E BaseProduct.get_tir_back
    rw [searchSummariesE_eq_ok]
    cases searchSummaries tirBackChain name p.integrated_spectral_averages_summaries with
    | some v => rfl
    | none =>
      cases p.physical_properties with
      | some pp => rfl
      | none => rfl
  · unfold BaseProduct.get_emissivity_front_E BaseProduct.get_emissivity_front
    rw [searchSummariesE_eq_ok]
    cases searchSummaries emissivityFrontChain name
        p.integrated_spectral_averages_summaries with
    | some v => rfl
    | none =>
      cases p.physical_properties with
      | some pp => rfl
      | none => rfl
  · unfold BaseProduct.get_emissivity_back_E BaseProduct.get_emissivity_back
    rw [searchSummariesE_eq_ok]
    cases searchSummaries emissivityBackChain name
        p.integrated_spectral_averages_summaries with
    | some v => rfl
    | none =>
      cases p.physical_properties with
      | some pp => rfl
      | none => rfl
  · intro hpp hmiss
    have h1 : searchSummaries tirFrontChain name
        p.integrated_spectral_averages_summaries = none :=
      (searchSummaries_eq_none_iff _ _ _).mpr
        (fun s hs _ => (chainValue_none_of_missing s (hmiss s hs)).1)
    have h2 : searchSummaries tirBackChain name
        p.integrated_spectral_averages_summaries = none :=
      (searchSummaries_eq_none_iff _ _ _).mpr
        (fun s hs _ => (chainValue_none_of_missing s (hmiss s hs)).2.1)
    have h3 : searchSummaries emissivityFrontChain name
        p.integrated_spectral_averages_summaries = none :=
      (searchSummaries_eq_none_iff _ _ _).mpr
        (fun s hs _ => (chainValue_none_of_missing s (hmiss s hs)).2.2.1)
    have h4 : searchSummaries emissivityBackChain name
        p.integrated_spectral_averages_summaries = none :=
      (searchSummaries_eq_none_iff _ _ _).mpr
        (fun s hs _ => (chainValue_none_of_missing s (hmiss s hs)).2.2.2)
    exact ⟨by simp [BaseProduct.get_tir_front, h1, hpp],
      by simp [BaseProduct.get_tir_back, h2, hpp],
      by simp [BaseProduct.get_emissivity_front, h3, hpp],
      by simp [BaseProduct.get_emissivity_back, h4, hpp]⟩

/-- A product whose two NFRC summaries miss `summary_values` and
`thermal_ir` respectively, with no physical properties at all. -/
def sparseProduct : BaseProduct :=
  { integrated_spectral_averages_summaries :=
      [{ calculation_standard := some "NFRC" },
       { calculation_standard := some "NFRC", summary_values := some {} }] }

/-- **C8 witness.** On the sparse product every accessor degrades to null
(and the `Except`-form accessor answers `.ok`). -/
theorem thermal_accessors_never_raise_witness :
    sparseProduct.get_tir_front "NFRC" = none ∧
    sparseProduct.get_tir_back "NFRC" = none ∧
    sparseProduct.get_emissivity_front "NFRC" = none ∧
    sparseProduct.get_emissivity_back "NFRC" = none :=
  (thermal_accessors_never_raise sparseProduct "NFRC").2.2.2.2 rfl
    (by intro s hs
        simp only [sparseProduct, List.mem_cons, List.mem_singleton] at hs
        rcases hs with rfl | hs
        · exact Or.inl rfl
        · rcases hs with rfl | hs
          · exact Or.inr ⟨{}, rfl, rfl⟩
          · simp at hs)

/-- All leaf fields of a flux record are null. -/
def fluxLeavesNull (f : OpticalStandardMethodFluxResults) : Bool :=
  f.direct_direct.isNone && f.direct_diffuse.isNone &&
  f.direct_hemispherical.isNone && f.diffuse_diffuse.isNone && f.matrix.isNone

/-- A standard-method result record is fully initialised: its four flux
sub-records are present with null leaves, and its own leaf fields are null. -/
def stdFullyInit (r : OpticalStandardMethodResults) : Bool :=
  match r.transmittance_front, r.transmittance_back,
      r.reflectance_front, r.reflectance_back with
  | some tf, some tb, some rf, some rb =>
    fluxLeavesNull tf && fluxLeavesNull tb && fluxLeavesNull rf &&
    fluxLeavesNull rb && r.absorptance_front_direct.isNone &&
    r.absorptance_back_direct.isNone && r.absorptance_front_hemispheric.isNone &&
    r.absorptance_back_hemispheric.isNone
  | _, _, _, _ => false

/-- All leaf fields of a thermal-IR record (which has no sub-records) are
null. -/
def thermalIRLeavesNull (t : ThermalIRResults) : Bool :=
  t.transmittance_front_diffuse_diffuse.isNone &&
  t.transmittance_back_diffuse_diffuse.isNone &&
  t.emissivity_front_hemispheric.isNone && t.emissivity_back_hemispheric.isNone

/-- A colour result is fully initialised: its three sub-records are present
with null leaves. -/
def colorResultFullyInit (c : OpticalColorResult) : Bool :=
  match c.trichromatic, c.lab, c.rgb with
  | some tri, some lab, some rgb =>
    tri.x.isNone && tri.y.isNone && tri.z.isNone &&
    lab.l.isNone && lab.a.isNone && lab.b.isNone &&
    rgb.r.isNone && rgb.g.isNone && rgb.b.isNone
  | _, _, _ => false

/-- A colour flux record is fully initialised in all four directions. -/
def colorFluxFullyInit (f : OpticalColorFluxResults) : Bool :=
  match f.direct_direct, f.direct_diffuse,
      f.direct_hemispherical, f.diffuse_diffuse with
  | some a, some b, some c, some d =>
    colorResultFullyInit a && colorResultFullyInit b &&
    colorResultFullyInit c && colorResultFullyInit d
  | _, _, _, _ => false

/-- A colour results record is fully initialised in all four quantities. -/
def colorResultsFullyInit (c : OpticalColorResults) : Bool :=
  match c.transmittance_front, c.transmittance_back,
      c.reflectance_front, c.reflectance_back with
  | some tf, some tb, some rf, some rb =>
    colorFluxFullyInit tf && colorFluxFullyInit tb &&
    colorFluxFullyInit rf && colorFluxFullyInit rb
  | _, _, _, _ => false

/-- A summary-values record is fully initialised at every level of its fixed
schema, with all leaf numeric fields null. -/
def summaryFullyInit (sv : IntegratedSpectralAveragesSummaryValues) : Bool :=
  match sv.solar, sv.photopic, sv.thermal_ir, sv.tuv,
      sv.spf, sv.tdw, sv.tkr, sv.color with
  | some so, some ph, some ti, some tu, some sp, some td, some tk, some co =>
    stdFullyInit so && stdFullyInit ph && thermalIRLeavesNull ti &&
    stdFullyInit tu && stdFullyInit sp && stdFullyInit td && stdFullyInit tk &&
    colorResultsFullyInit co
  | _, _, _, _, _, _, _, _ => false

/-- Every optional sub-record of a summary-values record is null. -/
def summaryAllNone (sv : IntegratedSpectralAveragesSummaryValues) : Bool :=
  sv.solar.isNone && sv.photopic.isNone && sv.thermal_ir.isNone &&
  sv.tuv.isNone && sv.spf.isNone && sv.tdw.isNone && sv.tkr.isNone &&
  sv.color.isNone

/-- **C9.** The factory-created summary values have no null sub-record at any
level of the fixed schema (leaf numerics all null), whereas the bare
default-constructed record has every optional sub-record null. -/
theorem summary_values_factory_fully_initialized :
    summaryFullyInit IntegratedSpectralAveragesSummaryValuesFactory.create = true
    ∧ summaryAllNone ({} : IntegratedSpectralAveragesSummaryValues) = true
    ∧ summaryAllNone IntegratedSpectralAveragesSummaryValuesFactory.create = false := by
  refine ⟨rfl, rfl, rfl⟩

/-- **C2.** `set_rise_from_curvature` demands `slat_curvature`; a
non-positive curvature yields rise 0 without needing `slat_width`; otherwise
`slat_width` is demanded, and the rise is `slat_width / 2` when
`curvature² − width²/4` is negative and `curvature − sqrt(...)` otherwise;
in particular width 16 and curvature 1 give rise 8. -/
theorem set_rise_from_curvature_spec (g : BlindGeometry) :
    (g.slat_curvature = none →
      g.set_rise_from_curvature = .error (.missingValue "slat_curvature"))
    ∧ (∀ c, g.slat_curvature = some c → c ≤ 0 →
        g.set_rise_from_curvature = .ok ({ g with _rise := some 0 }, 0))
    ∧ (∀ c, g.slat_curvature = some c → 0 < c → g.slat_width = none →
        g.set_rise_from_curvature = .error (.missingValue "slat_width"))
    ∧ (∀ c w, g.slat_curvature = some c → g.slat_width = some w → 0 < c →
        c * c - w * w / 4 < 0 →
        g.set_rise_from_curvature = .ok ({ g with _rise := some (w / 2) }, w / 2))
    ∧ (∀ c w, g.slat_curvature = some c → g.slat_width = some w → 0 < c →
        0 ≤ c * c - w * w / 4 →
        g.set_rise_from_curvature =
          .ok ({ g with _rise := some (c - Real.sqrt (c * c - w * w / 4)) },
            c - Real.sqrt (c * c - w * w / 4)))
    ∧ (({ slat_width := some 16, slat_curvature := some 1 } :
          BlindGeometry).set_rise_from_curvature =
        .ok ({ slat_width := some 16, slat_curvature := some 1, _rise := some 8 }, 8)) := by
  refine ⟨?_, ?_, ?_, ?_, ?_, ?_⟩
  · intro hc
    simp only [BlindGeometry.set_rise_from_curvature, hc]
  · intro c hc hle
    simp only [BlindGeometry.set_rise_from_curvature, hc, if_pos hle]
  · intro c hc h0 hw
    simp only [BlindGeometry.set_rise_from_curvature, hc, hw,
      if_neg (not_le.mpr h0)]
  · intro c w hc hw h0 hval
    simp only [BlindGeometry.set_rise_from_curvature, hc, hw,
      if_neg (not_le.mpr h0), if_pos hval]
  · intro c w hc hw h0 hval
    simp only [BlindGeometry.set_rise_from_curvature, hc, hw,
      if_neg (not_le.mpr h0), if_neg (not_lt.mpr hval)]
  · have h1 : ¬((1 : ℝ) ≤ 0) := by norm_num
    have h2 : (1 : ℝ) * 1 - 16 * 16 / 4 < 0 := by norm_num
    simp only [BlindGeometry.set_rise_from_curvature, if_neg h1, if_pos h2]
    norm_num

/-- **C2 witness.** A concrete run of each guarded branch: missing curvature
errors, non-positive curvature yields rise 0, and a positive curvature with
missing width errors. -/
theorem set_rise_from_curvature_spec_witness :
    (({} : BlindGeometry).set_rise_from_curvature =
      .error (.missingValue "slat_curvature"))
    ∧ (({ slat_curvature := some (-2) } : BlindGeometry).set_rise_from_curvature =
        .ok ({ slat_curvature := some (-2), _rise := some 0 }, 0))
    ∧ (({ slat_curvature := some 3 } : BlindGeometry).set_rise_from_curvature =
        .error (.missingValue "slat_width")) :=
  ⟨(set_rise_from_curvature_spec {}).1 rfl,
   (set_rise_from_curvature_spec _).2.1 (-2) rfl (by norm_num),
   (set_rise_from_curvature_spec _).2.2.1 3 rfl (by norm_num) rfl⟩

/-- **C3.** `set_curvature_from_rise` demands `rise`; a non-positive rise
yields curvature 0; otherwise `slat_width` is demanded, a rise beyond
`slat_width / 2` is invalid geometry, and otherwise the curvature is
`(rise² + width²/4) / (2·rise)` — clamped to `width / 2` were it negative;
in particular width 10 and rise 2.5 give curvature 6.25. -/
theorem set_curvature_from_rise_spec (g : BlindGeometry) :
    (g._rise = none →
      g.set_curvature_from_rise = .error (.missingValue "rise"))
    ∧ (∀ r, g._rise = some r → r ≤ 0 →
        g.set_curvature_from_rise = .ok ({ g with slat_curvature := some 0 }, 0))
    ∧ (∀ r, g._rise = some r → 0 < r → g.slat_width = none →
        g.set_curvature_from_rise = .error (.missingValue "slat_width"))
    ∧ (∀ r w, g._rise = some r → g.slat_width = some w → 0 < r → w / 2 < r →
        g.set_curvature_from_rise = .error (.invalidGeometry (w / 2)))
    ∧ (∀ r w, g._rise = some r → g.slat_width = some w → 0 < r → r ≤ w / 2 →
        g.set_curvature_from_rise =
          .ok ({ g with
                 slat_curvature := some ((r * r + w * w / 4) / (r * 2)) },
            (r * r + w * w / 4) / (r * 2))
        ∧ 0 ≤ (r * r + w * w / 4) / (r * 2))
    ∧ (({ slat_width := some 10, _rise := some (5 / 2) } :
          BlindGeometry).set_curvature_from_rise =
        .ok ({ slat_width := some 10, _rise := some (5 / 2),
               slat_curvature := some (25 / 4) }, 25 / 4)) := by
  refine ⟨?_, ?_, ?_, ?_, ?_, ?_⟩
  · intro hr
    simp only [BlindGeometry.set_curvature_from_rise, hr]
  · intro r hr hle
    simp only [BlindGeometry.set_curvature_from_rise, hr, if_pos hle]
  · intro r hr h0 hw
    simp only [BlindGeometry.set_curvature_from_rise, hr, hw,
      if_neg (not_le.mpr h0)]
  · intro r w hr hw h0 hmax
    simp only [BlindGeometry.set_curvature_from_rise, hr, hw,
      if_neg (not_le.mpr h0), if_pos hmax]
  · intro r w hr hw h0 hmax
    have hnum : 0 ≤ r * r + w * w / 4 := by nlinarith
    have hden : 0 < r * 2 := by linarith
    have hval : 0 ≤ (r * r + w * w / 4) / (r * 2) := div_nonneg hnum hden.le
    refine ⟨?_, hval⟩
    simp only [BlindGeometry.set_curvature_from_rise, hr, hw,
      if_neg (not_le.mpr h0), if_neg (not_lt.mpr hmax),
      if_neg (not_lt.mpr hval)]
  · have h1 : ¬((5 / 2 : ℝ) ≤ 0) := by norm_num
    have h2 : ¬((10 : ℝ) / 2 < 5 / 2) := by norm_num
    have h3 : ¬(((5 / 2 : ℝ) * (5 / 2) + 10 * 10 / 4) / (5 / 2 * 2) < 0) := by norm_num
    simp only [BlindGeometry.set_curvature_from_rise, if_neg h1, if_neg h2, if_neg h3]
    norm_num

/-- **C3 witness.** A concrete run of each guarded branch: missing rise
errors, non-positive rise yields curvature 0, a positive rise with missing
width errors, and a rise beyond half the width is invalid geometry. -/
theorem set_curvature_from_rise_spec_witness :
    (({} : BlindGeometry).set_curvature_from_rise = .error (.missingValue "rise"))
    ∧ (({ _rise := some 0 } : BlindGeometry).set_curvature_from_rise =
        .ok ({ _rise := some 0, slat_curvature := some 0 }, 0))
    ∧ (({ _rise := some 3 } : BlindGeometry).set_curvature_from_rise =
        .error (.missingValue "slat_width"))
    ∧ (({ _rise := some 6, slat_width := some 10 } :
          BlindGeometry).set_curvature_from_rise =
        .error (.invalidGeometry (10 / 2))) :=
  ⟨(set_curvature_from_rise_spec {}).1 rfl,
   (set_curvature_from_rise_spec _).2.1 0 rfl (by norm_num),
   (set_curvature_from_rise_spec _).2.2.1 3 rfl (by norm_num) rfl,
   (set_curvature_from_rise_spec _).2.2.2.1 6 10 rfl rfl (by norm_num) (by norm_num)⟩

/-- **C10.** With exact arithmetic, converting a rise `0 < r ≤ w/2` to a
curvature and back recovers exactly `r`; at `r = w/2` the intermediate
curvature is `w/2`. -/
theorem rise_curvature_roundtrip (g : BlindGeometry) (w r : ℝ)
    (hw : 0 < w) (hr : 0 < r) (hrw : r ≤ w / 2)
    (hgw : g.slat_width = some w) (hgr : g._rise = some r) :
    ∃ g' c, g.set_curvature_from_rise = .ok (g', c) ∧
      (r = w / 2 → c = w / 2) ∧
      ∃ g'' r', g'.set_rise_from_curvature = .ok (g'', r') ∧
        r' = r ∧ g''._rise = some r := by
  have hden : (0 : ℝ) < r * 2 := by linarith
  have hnum : (0 : ℝ) < r * r + w * w / 4 := by nlinarith
  have hcpos : 0 < (r * r + w * w / 4) / (r * 2) := div_pos hnum hden
  refine ⟨{ g with slat_curvature := some ((r * r + w * w / 4) / (r * 2)) },
    (r * r + w * w / 4) / (r * 2), ?_, ?_, ?_⟩
  · simp only [BlindGeometry.set_curvature_from_rise, hgr, hgw,
      if_neg (not_le.mpr hr), if_neg (not_lt.mpr hrw),
      if_neg (not_lt.mpr hcpos.le)]
  · intro hreq
    rw [hreq]
    field_simp
    ring
  · have key : (r * r + w * w / 4) / (r * 2) * ((r * r + w * w / 4) / (r * 2)) -
        w * w / 4 = ((w * w / 4 - r * r) / (r * 2)) ^ 2 := by
      field_simp
      ring
    have hq : (0 : ℝ) ≤ w * w / 4 - r * r := by nlinarith
    have hsqrt : Real.sqrt ((r * r + w * w / 4) / (r * 2) *
        ((r * r + w * w / 4) / (r * 2)) - w * w / 4) =
        (w * w / 4 - r * r) / (r * 2) := by
      rw [key, Real.sqrt_sq (div_nonneg hq hden.le)]
    have hvalnn : (0 : ℝ) ≤ (r * r + w * w / 4) / (r * 2) *
        ((r * r + w * w / 4) / (r * 2)) - w * w / 4 := by
      rw [key]
      exact sq_nonneg _
    have hrise : (r * r + w * w / 4) / (r * 2) -
        Real.sqrt ((r * r + w * w / 4) / (r * 2) *
          ((r * r + w * w / 4) / (r * 2)) - w * w / 4) = r := by
      rw [hsqrt]
      field_simp
      ring
    refine ⟨{ { g with slat_curvature := some ((r * r + w * w / 4) / (r * 2)) } with
        _rise := some ((r * r + w * w / 4) / (r * 2) -
          Real.sqrt ((r * r + w * w / 4) / (r * 2) *
            ((r * r + w * w / 4) / (r * 2)) - w * w / 4)) },
      (r * r + w * w / 4) / (r * 2) -
        Real.sqrt ((r * r + w * w / 4) / (r * 2) *
          ((r * r + w * w / 4) / (r * 2)) - w * w / 4), ?_, hrise, ?_⟩
    · simp only [BlindGeometry.set_rise_from_curvature,
        if_neg (not_le.mpr hcpos), hgw, if_neg (not_lt.mpr hvalnn)]
    · simp only [hrise]

/-- **C10 witness.** The boundary case `w = 16`, `r = 8 = w/2`: the round
trip goes through curvature 8 and returns rise 8. -/
theorem rise_curvature_roundtrip_witness :
    ∃ g' c, ({ slat_width := some 16, _rise := some 8 } :
        BlindGeometry).set_curvature_from_rise = .ok (g', c) ∧
      ((8 : ℝ) = 16 / 2 → c = 16 / 2) ∧
      ∃ g'' r', g'.set_rise_from_curvature = .ok (g'', r') ∧
        r' = 8 ∧ g''._rise = some 8 :=
  rise_curvature_roundtrip _ 16 8 (by norm_num) (by norm_num) (by norm_num) rfl rfl

end IGSDB
